import Mathlib

/-!
Shallow embedding of the Vidsuka download-orchestration backend
(`src/app.py`, plus the sanitizer of `src/downloader/yt_dlp_engine.py`).

The SQLite ledger (`downloads` table) is modelled as a `List Row`; the
filesystem is modelled as explicit parameters at the points where the code
consults it; the MD5 URL fingerprint is abstracted as a function parameter
`h : String → String` (nothing below depends on the concrete hash);
timestamps are `Nat` (`CURRENT_TIMESTAMP` is passed in as `now`).
-/

namespace Vidsuka

/-- One row of the `downloads` table (`CREATE TABLE` in `init_db`,
`src/app.py` lines 96-108). `completedAt`/`filesize` are `NULL`able. -/
structure Row where
  id : String
  filename : String
  url : String
  urlHash : String
  status : String
  startedAt : Nat
  completedAt : Option Nat
  filesize : Option Nat
  ipAddress : String
deriving Repr, DecidableEq

/-- The character class of `FILENAME_SANITIZE_PATTERN = re.compile(r'[\\/*?:"<>|]')`
(`src/app.py` line 73). -/
def badChar (c : Char) : Bool :=
  c = '\\' || c = '/' || c = '*' || c = '?' || c = ':' || c = '"' ||
  c = '<' || c = '>' || c = '|'

/-- `sanitize_filename` (`src/app.py` lines 141-148): empty input returns
`"untitled"`; otherwise each character matching the sanitize pattern is
replaced by `'_'` and the result is truncated to `MAX_FILENAME_LENGTH = 100`. -/
def sanitize_filename (filename : String) : String :=
  if filename = "" then "untitled"
  else
    let subbed := String.mk (filename.toList.map (fun c => if badChar c then '_' else c))
    if subbed.length > 100 then String.mk (subbed.toList.take 100) else subbed

/-- The character class kept by `re.sub(r'[^a-zA-Z0-9\s]', '', title)` in
`clean_filename` (`src/downloader/yt_dlp_engine.py` line 28); `\s` is
modelled by `Char.isWhitespace`. -/
def keepChar (c : Char) : Bool :=
  ('a' ≤ c && c ≤ 'z') || ('A' ≤ c && c ≤ 'Z') || ('0' ≤ c && c ≤ '9') || c.isWhitespace

/-- Python `str.replace(pat, '')` for a non-empty `pat`, on char lists:
non-overlapping occurrences are removed left to right, scanning resuming
after each removed occurrence. The fuel (initially the list's length)
only makes the recursion structural; it never runs out. -/
def strDropOcc : Nat → List Char → List Char → List Char
  | 0, _, s => s
  | _+1, _, [] => []
  | fuel+1, pat, c :: rest =>
    if pat.isPrefixOf (c :: rest) then
      strDropOcc fuel pat (rest.drop (pat.length - 1))
    else c :: strDropOcc fuel pat rest

/-- `s.replace(pat, '')` of Python, wrapped for `String`. -/
def pyReplaceEmpty (s pat : String) : String :=
  String.mk (strDropOcc s.toList.length pat.toList s.toList)

/-- `clean_filename` (`src/downloader/yt_dlp_engine.py` lines 26-36):
drop characters outside `[a-zA-Z0-9\s]`, replace spaces by underscores,
apply the three (mojibake) emoji removals of line 30, truncate to 100. -/
def clean_filename (title : String) : String :=
  let s1 := String.mk (title.toList.filter keepChar)
  let s2 := String.mk (s1.toList.map (fun c => if c = ' ' then '_' else c))
  let s3 := pyReplaceEmpty (pyReplaceEmpty (pyReplaceEmpty s2 "ðŸ”¥") "ðŸ¤¯") "â—ï¸"
  if s3.length > 100 then String.mk (s3.toList.take 100) else s3

/-- `record_download_start` (`src/app.py` lines 114-121): INSERT of a fresh
`started` row (`started_at` defaults to `CURRENT_TIMESTAMP`, the remaining
nullable columns to `NULL`). -/
def record_download_start (db : List Row) (download_id filename url urlHash ip : String)
    (now : Nat) : List Row :=
  db ++ [{ id := download_id, filename := filename, url := url, urlHash := urlHash,
           status := "started", startedAt := now, completedAt := none,
           filesize := none, ipAddress := ip }]

/-- The per-row effect of the UPDATE in `record_download_complete`
(`src/app.py` lines 123-129): rows whose `id` matches get
`status = 'completed'`, `completed_at = CURRENT_TIMESTAMP`,
`filesize = ?`; every other row is untouched. -/
def updateRow (download_id : String) (filesize now : Nat) (r : Row) : Row :=
  if r.id = download_id then
    { r with status := "completed", completedAt := some now, filesize := some filesize }
  else r

/-- `record_download_complete` (`src/app.py` lines 123-129): an unconditional
`UPDATE downloads SET status, completed_at, filesize WHERE id = ?`. -/
def record_download_complete (db : List Row) (download_id : String)
    (filesize now : Nat) : List Row :=
  db.map (updateRow download_id filesize now)

/-- Whether a row matches `url_hash = ? AND status = 'completed'`
(the WHERE clause of `check_existing_download`, `src/app.py` line 135). -/
def matchesCompleted (urlHash : String) (r : Row) : Bool :=
  r.urlHash = urlHash && r.status = "completed"

/-- `ORDER BY completed_at DESC LIMIT 1` over the matching rows: keep the
row with the greatest `completed_at` (`NULL` ordered last, as in SQLite
descending order). -/
def pickLatest (rows : List Row) : Option Row :=
  rows.foldl
    (fun best r =>
      match best with
      | none => some r
      | some b => if (r.completedAt.getD 0) > (b.completedAt.getD 0) then some r else some b)
    none

/-- `check_existing_download` (`src/app.py` lines 131-138): returns the
filename of the most recent `completed` row for the URL's fingerprint, or
`none`. It consults only the ledger — never the filesystem. -/
def check_existing_download (h : String → String) (db : List Row) (url : String) :
    Option String :=
  (pickLatest (db.filter (matchesCompleted (h url)))).map (·.filename)

/-- The WHERE clause of the Sweeper's SELECT and DELETE
(`src/app.py` lines 216-220 and 234-238): `completed_at < cutoff AND
status = 'completed'`; a `NULL` `completed_at` never satisfies `<`. -/
def shouldPurge (cutoff : Nat) (r : Row) : Bool :=
  (match r.completedAt with | some t => decide (t < cutoff) | none => false) &&
  r.status = "completed"

/-- `cleanup_old_files` (`src/app.py` lines 210-243) at a given `cutoff`
(`now - CLEANUP_OLDER_THAN` in the code). The filesystem is the list `fs`
of existing filenames; `delFails f = true` models `f.unlink()` raising.
Each selected row's file is deleted best-effort (a failing unlink is
logged, the batch continues), then the selected ledger rows are deleted
unconditionally. Returns (new ledger, new filesystem). -/
def cleanup_old_files (cutoff : Nat) (db : List Row) (fs : List String)
    (delFails : String → Bool) : List Row × List String :=
  let victims := db.filter (shouldPurge cutoff)
  let newFs := fs.filter
    (fun f => !((victims.any (fun r => r.filename = f)) && !(delFails f)))
  (db.filter (fun r => !(shouldPurge cutoff r)), newFs)

/-- The filename synthesized in `download_video` (`src/app.py` line 298):
`f"{safe_title}_{download_id[:8]}.mp4"`. -/
def make_filename (safe_title download_id : String) : String :=
  safe_title ++ "_" ++ String.mk (download_id.toList.take 8) ++ ".mp4"

/-- Outcome of `POST /api/download` (`download_video`, `src/app.py`
lines 271-322), restricted to the success paths. -/
inductive DlResponse where
  | cached (filename : String)
  | started (filename download_id : String)
deriving Repr, DecidableEq

/-- `download_video` (`src/app.py` lines 271-322), given a non-empty URL and
a successful probe. `title` is the probe's title, `download_id` the fresh
UUID string, `ip` the requester address, `now` the clock. Returns the
response, the new ledger, and whether a worker task was submitted to
`DOWNLOAD_EXECUTOR`. The cached fast path fires on the ledger row alone:
the function takes no filesystem input because the code reads none here. -/
def download_video (h : String → String) (db : List Row) (url : String)
    (title download_id ip : String) (now : Nat) :
    DlResponse × List Row × Bool :=
  match check_existing_download h db url with
  | some f => (.cached f, db, false)
  | none =>
    let safe_title := sanitize_filename title
    let filename := make_filename safe_title download_id
    (.started filename download_id,
     record_download_start db download_id filename url (h url) ip now,
     true)

/-- `download_task` (`src/app.py` lines 324-368), the worker body. External
effects are inputs: `toolRaises` — the `yt_dlp` invocation (or the
glob/rename reconciliation) raises; `filepathExists` — the expected output
path exists afterwards; `globHit` — otherwise `DOWNLOAD_FOLDER.glob(stem*)`
finds a file (which is then renamed to `.mp4` and exists); `finalSize` —
`st_size` of the resulting file. Returns the new ledger and whether an
exception escaped the function. Every branch only logs on failure: the
ledger is written solely by `record_download_complete` on success, and the
bare `except` swallows everything. -/
def download_task (db : List Row) (download_id : String)
    (toolRaises filepathExists globHit : Bool) (finalSize now : Nat) :
    List Row × Bool :=
  if toolRaises then (db, false)
  else if filepathExists || globHit then
    (record_download_complete db download_id finalSize now, false)
  else (db, false)

/-- One character of `FILENAME_VALIDATE_PATTERN = re.compile(r'^[\w\s\-\.#]+$')`
(`src/app.py` line 74): word characters (modelled as ASCII letters, digits
and underscore), whitespace, hyphen, dot, hash. -/
def allowedChar (c : Char) : Bool :=
  c.isAlpha || ('0' ≤ c && c ≤ '9') || c = '_' || c.isWhitespace ||
  c = '-' || c = '.' || c = '#'

/-- `FILENAME_VALIDATE_PATTERN.match(decoded)`: the `+` quantifier demands a
non-empty string, every character in the class. (`re.match` anchors at the
start; the pattern's own `$` anchors the end.) -/
def validateFilename (s : String) : Bool :=
  !(s.toList.isEmpty) && s.toList.all allowedChar

/-- Split a character list at `'/'` (the semantics of Python's
`"s".split('/')`): `""` gives `[""]`, separators delimit possibly-empty
components. -/
def splitSlash : List Char → List (List Char)
  | [] => [[]]
  | c :: rest =>
    match splitSlash rest with
    | [] => [[c]]
    | h :: t => if c = '/' then [] :: h :: t else (c :: h) :: t

/-- Posix path components of a (relative) filename string: split on `/`. -/
def splitPath (s : String) : List String :=
  (splitSlash s.toList).map String.mk

/-- `Path.resolve()` on a component list rooted at `/`: drops empty and `.`
components, a `..` removes the last surviving component (at the
filesystem root it is a no-op, as in POSIX resolution). -/
def resolveComponents (comps : List String) : List String :=
  comps.foldl
    (fun acc c =>
      if c = "" || c = "." then acc
      else if c = ".." then acc.dropLast
      else acc ++ [c])
    []

/-- `child.relative_to(base)` succeeding on resolved paths: `base`'s
components start `child`'s component list. -/
def isSubPath : List String → List String → Bool
  | [], _ => true
  | _ :: _, [] => false
  | a :: as, b :: bs => a = b && isSubPath as bs

/-- Outcome of `GET /api/downloads/<filename>` (`download_file`,
`src/app.py` lines 370-418). `invalid` is the 400 of both the pattern
check and the traversal check, `notFound` the 404, `emptyFile` the 500,
`served` the streamed response. -/
inductive ServeResult where
  | invalid
  | notFound
  | emptyFile
  | served (path : List String) (size : Nat)
deriving Repr, DecidableEq

/-- `download_file` (`src/app.py` lines 370-418) after URL decoding:
`decoded` is the `unquote`d filename, `root` the resolved component list of
`DOWNLOAD_FOLDER`, `fex`/`sizeOf` the filesystem's `exists()`/`st_size`.
Pattern check first, then `file_path.resolve().relative_to(root)` —
success iff the resolved path stays a descendant (prefix check) — then the
existence and non-emptiness checks, then the file is served. -/
def download_file (root : List String) (fex : List String → Bool)
    (sizeOf : List String → Nat) (decoded : String) : ServeResult :=
  if !(validateFilename decoded) then .invalid
  else
    let file_path := resolveComponents (root ++ splitPath decoded)
    if !(isSubPath (resolveComponents root) file_path) then .invalid
    else if !(fex file_path) then .notFound
    else if sizeOf file_path = 0 then .emptyFile
    else .served file_path (sizeOf file_path)

/-! ### Helper lemmas -/

lemma length_mk (l : List Char) : (String.mk l).length = l.length := rfl

lemma toList_mk (l : List Char) : (String.mk l).toList = l := rfl

lemma mk_data (s : String) : String.mk s.data = s := rfl

lemma toList_eq_data (s : String) : s.toList = s.data := rfl

lemma data_append (a b : String) : (a ++ b).data = a.data ++ b.data := rfl

lemma eq_empty_iff (s : String) : s = "" ↔ s.data = [] := by
  constructor
  · intro h; subst h; rfl
  · intro h; cases s; simp at h; subst h; rfl

lemma sanitize_len (x : String) : (sanitize_filename x).length ≤ 100 := by
  unfold sanitize_filename
  by_cases hx : x = ""
  · simp only [hx, if_true]; decide
  · simp only [hx, if_false]
    set l := x.toList.map (fun c => if badChar c then '_' else c) with hl
    by_cases hlen : (String.mk l).length > 100
    · simp only [hlen, if_true]
      rw [length_mk, toList_mk, List.length_take]
      omega
    · simp only [hlen, if_false]
      omega

lemma sanitize_no_bad (x : String) (hx : x ≠ "") :
    ∀ c ∈ (sanitize_filename x).toList, badChar c = false := by
  unfold sanitize_filename
  simp only [hx, if_false]
  set f : Char → Char := fun c => if badChar c then '_' else c with hf
  have hmem : ∀ c ∈ x.toList.map f, badChar c = false := by
    intro c hc
    rw [List.mem_map] at hc
    obtain ⟨a, _, rfl⟩ := hc
    cases hb : badChar a with
    | true => simp only [hf, hb, if_true]; decide
    | false => simp [hf, hb]
  by_cases hlen : (String.mk (x.toList.map f)).length > 100
  · simp only [hlen, if_true]
    intro c hc
    rw [toList_mk] at hc
    exact hmem c (List.take_subset _ _ hc)
  · simp only [hlen, if_false]
    intro c hc
    rw [toList_mk] at hc
    exact hmem c hc

lemma sanitize_length_of_ne (x : String) (hx : x ≠ "") :
    (sanitize_filename x).length = min x.length 100 := by
  unfold sanitize_filename
  simp only [hx, if_false]
  set l := x.toList.map (fun c => if badChar c then '_' else c) with hl
  have hllen : l.length = x.length := by rw [hl, List.length_map]; rfl
  by_cases hlen : (String.mk l).length > 100
  · simp only [hlen, if_true]
    rw [length_mk, toList_mk, List.length_take]
    rw [length_mk] at hlen
    omega
  · simp only [hlen, if_false]
    rw [length_mk] at hlen ⊢
    omega

lemma sanitize_pos (x : String) (hx : x ≠ "") :
    0 < (sanitize_filename x).length := by
  rw [sanitize_length_of_ne x hx]
  have hx' : x.data ≠ [] := fun h => hx ((eq_empty_iff x).mpr h)
  have : 0 < x.length := List.length_pos.mpr hx'
  omega

lemma sanitize_ne_empty (x : String) : sanitize_filename x ≠ "" := by
  by_cases hx : x = ""
  · subst hx; decide
  · intro h
    have := sanitize_pos x hx
    rw [h] at this
    simp at this

lemma sanitize_idem (x : String) :
    sanitize_filename (sanitize_filename x) = sanitize_filename x := by
  by_cases hx : x = ""
  · subst hx; decide
  · set y := sanitize_filename x with hy
    have hyne : y ≠ "" := sanitize_ne_empty x
    have hlen : y.length ≤ 100 := sanitize_len x
    have hnb : ∀ c ∈ y.toList, badChar c = false := sanitize_no_bad x hx
    conv_lhs => unfold sanitize_filename
    simp only [hyne, if_false]
    have hmap : y.toList.map (fun c => if badChar c then '_' else c) = y.toList := by
      have h1 : ∀ c ∈ y.toList, (fun c => if badChar c then '_' else c) c = c := by
        intro c hc; simp [hnb c hc]
      calc y.toList.map (fun c => if badChar c then '_' else c)
          = y.toList.map id := List.map_congr_left h1
        _ = y.toList := List.map_id _
    rw [hmap, toList_eq_data, mk_data]
    have hle : ¬(y.length > 100) := by omega
    simp only [hle, if_false]

lemma clean_len (x : String) : (clean_filename x).length ≤ 100 := by
  unfold clean_filename
  dsimp only
  split
  · rw [length_mk, List.length_take]
    omega
  · next h => omega

/-! ### Claim theorems -/

/-- C1 (counterexample): with a ledger holding a completed row for URL `"u"`
whose artifact `"gone.mp4"` is absent from the (empty) filesystem,
`download_video` still answers `cached` with the stale filename, leaves the
ledger unchanged and submits no worker task — the claim says a new job
would be created when the artifact file is absent. -/
theorem C1_counterexample :
    ¬ ("gone.mp4" ∈ ([] : List String)) ∧
    download_video (fun s => s)
      [⟨"j1", "gone.mp4", "u", "u", "completed", 0, some 5, some 10, "ip"⟩]
      "u" "title" "abcdef01-2345-6789" "ip" 9 =
    (DlResponse.cached "gone.mp4",
     [⟨"j1", "gone.mp4", "u", "u", "completed", 0, some 5, some 10, "ip"⟩],
     false) := by
  constructor
  · simp
  · decide

/-- C1 (amended): whenever `check_existing_download` finds a completed row
for the URL's fingerprint, `POST /api/download` returns `cached=true` with
that row's filename, creates no new job row and submits no worker task —
unconditionally, with no check that the artifact still exists on disk. -/
theorem C1_cached_path (h : String → String) (db : List Row)
    (url title did ip : String) (now : Nat) (f : String)
    (hf : check_existing_download h db url = some f) :
    download_video h db url title did ip now = (.cached f, db, false) := by
  unfold download_video
  rw [hf]

/-- Witness for C1_cached_path at a concrete ledger. -/
theorem C1_cached_path_witness :
    download_video (fun s => s)
      [⟨"j1", "a.mp4", "u", "u", "completed", 0, some 5, some 10, "ip"⟩]
      "u" "title" "id-1234" "ip" 9 =
    (DlResponse.cached "a.mp4",
     [⟨"j1", "a.mp4", "u", "u", "completed", 0, some 5, some 10, "ip"⟩],
     false) :=
  C1_cached_path (fun s => s) _ "u" "title" "id-1234" "ip" 9 "a.mp4" (by decide)

/-- C2 (counterexample): when the external tool raises, `download_task`
returns with the ledger unchanged — the job's row is still `started`, no
row ever enters a `failed` state (the code has no `mark_failed`); the claim
says the row transitions to the failed terminal state with a reason. -/
theorem C2_counterexample :
    download_task [⟨"j1", "f.mp4", "u", "u", "started", 0, none, none, "ip"⟩]
      "j1" true false false 0 9 =
      ([⟨"j1", "f.mp4", "u", "u", "started", 0, none, none, "ip"⟩], false) ∧
    (∀ r ∈ (download_task
        [(⟨"j1", "f.mp4", "u", "u", "started", 0, none, none, "ip"⟩ : Row)]
        "j1" true false false 0 9).1, r.status ≠ "failed") := by
  constructor
  · decide
  · decide

/-- C2 (amended): no exception ever escapes `download_task`, and on any
failure (tool raises, or the output file is missing with no glob hit) the
ledger is left unchanged: the job's row simply stays `started` — the code
records no `failed` terminal state. -/
theorem C2_failure_behavior (db : List Row) (did : String)
    (toolRaises fe gh : Bool) (fs now : Nat) :
    (download_task db did toolRaises fe gh fs now).2 = false ∧
    (toolRaises = true ∨ (fe = false ∧ gh = false) →
      (download_task db did toolRaises fe gh fs now).1 = db) := by
  cases toolRaises <;> cases fe <;> cases gh <;>
    simp [download_task]

/-- Witness for C2_failure_behavior at a concrete failing run. -/
theorem C2_failure_behavior_witness :
    (download_task [⟨"j1", "f.mp4", "u", "u", "started", 0, none, none, "ip"⟩]
      "j1" false false false 0 9).2 = false ∧
    (download_task [(⟨"j1", "f.mp4", "u", "u", "started", 0, none, none, "ip"⟩ : Row)]
      "j1" false false false 0 9).1 =
      [⟨"j1", "f.mp4", "u", "u", "started", 0, none, none, "ip"⟩] :=
  ⟨(C2_failure_behavior _ "j1" false false false 0 9).1,
   (C2_failure_behavior _ "j1" false false false 0 9).2 (Or.inr ⟨rfl, rfl⟩)⟩

/-- C3 (counterexample): `record_download_complete` on an already-completed
row silently overwrites its completion time and size (no
`InvalidStateError`), and on a nonexistent id silently leaves the ledger
unchanged (no `NotFoundError`); the claim says both calls fail and leave
state unchanged. -/
theorem C3_counterexample :
    record_download_complete
      [⟨"j1", "f", "u", "u", "completed", 0, some 5, some 10, "ip"⟩] "j1" 99 77 =
      [⟨"j1", "f", "u", "u", "completed", 0, some 77, some 99, "ip"⟩] ∧
    record_download_complete
      [(⟨"j1", "f", "u", "u", "completed", 0, some 5, some 10, "ip"⟩ : Row)] "j1" 99 77 ≠
      [⟨"j1", "f", "u", "u", "completed", 0, some 5, some 10, "ip"⟩] ∧
    record_download_complete
      [(⟨"j1", "f", "u", "u", "completed", 0, some 5, some 10, "ip"⟩ : Row)] "nope" 99 77 =
      [⟨"j1", "f", "u", "u", "completed", 0, some 5, some 10, "ip"⟩] := by
  refine ⟨by decide, by decide, by decide⟩

/-- C3 (amended): `record_download_complete` never fails: with an id absent
from the ledger it returns the ledger unchanged (silent no-op), and for a
row carrying the id — in any state, terminal included — it unconditionally
overwrites status, completion time and filesize. -/
theorem C3_update_semantics (db : List Row) (jid : String) (fs now : Nat) :
    ((∀ r ∈ db, r.id ≠ jid) → record_download_complete db jid fs now = db) ∧
    (∀ r ∈ db, r.id = jid →
      ({ r with status := "completed", completedAt := some now,
                filesize := some fs } : Row)
        ∈ record_download_complete db jid fs now) := by
  constructor
  · intro hnone
    unfold record_download_complete
    have : ∀ r ∈ db, updateRow jid fs now r = id r := by
      intro r hr
      simp [updateRow, hnone r hr]
    rw [List.map_congr_left this, List.map_id]
  · intro r hr hid
    unfold record_download_complete
    rw [List.mem_map]
    exact ⟨r, hr, by simp [updateRow, hid]⟩

/-- Witness for C3_update_semantics at a concrete ledger. -/
theorem C3_update_semantics_witness :
    record_download_complete
      [⟨"j1", "f", "u", "u", "started", 0, none, none, "ip"⟩] "other" 3 4 =
      [⟨"j1", "f", "u", "u", "started", 0, none, none, "ip"⟩] ∧
    (⟨"j1", "f", "u", "u", "completed", 0, some 4, some 3, "ip"⟩ : Row) ∈
      record_download_complete
        [(⟨"j1", "f", "u", "u", "started", 0, none, none, "ip"⟩ : Row)] "j1" 3 4 :=
  ⟨(C3_update_semantics _ "other" 3 4).1 (by decide),
   (C3_update_semantics _ "j1" 3 4).2
     ⟨"j1", "f", "u", "u", "started", 0, none, none, "ip"⟩ (by simp) rfl⟩

/-- C5 (counterexample): the sanitizer of
`src/downloader/yt_dlp_engine.py` (`clean_filename`, named by the claim's
sources) is not idempotent: on `"a b"` a first pass yields `"a_b"` and a
second pass strips the underscore it just introduced, yielding `"ab"`. -/
theorem C5_counterexample :
    clean_filename "a b" = "a_b" ∧
    clean_filename (clean_filename "a b") = "ab" ∧
    clean_filename (clean_filename "a b") ≠ clean_filename "a b" := by
  refine ⟨by decide, by decide, by decide⟩

/-- C5 (amended): `sanitize_filename` (`src/app.py`) is idempotent and its
output never exceeds 100 characters; `clean_filename`
(`src/downloader/yt_dlp_engine.py`) also caps its output at 100 characters
but is not idempotent. -/
theorem C5_sanitizer_props (x : String) :
    sanitize_filename (sanitize_filename x) = sanitize_filename x ∧
    (sanitize_filename x).length ≤ 100 ∧
    (clean_filename x).length ≤ 100 :=
  ⟨sanitize_idem x, sanitize_len x, clean_len x⟩

/-- C6 (counterexample): on `"?"` — an input consisting entirely of unsafe
characters — `sanitize_filename` returns `"_"`, not the `"untitled"`
placeholder: unsafe characters are replaced by underscores, not stripped,
so a fully-unsafe input never empties and never triggers the placeholder. -/
theorem C6_counterexample :
    sanitize_filename "?" = "_" ∧ sanitize_filename "?" ≠ "untitled" := by
  refine ⟨by decide, by decide⟩

/-- C6 (amended): `sanitize_filename` never returns the empty string; it
returns the `"untitled"` placeholder exactly on empty input; and on
non-empty input it replaces unsafe characters by `'_'` rather than
stripping them — the output length equals the input length capped at 100. -/
theorem C6_nonempty_placeholder (x : String) :
    sanitize_filename x ≠ "" ∧
    (x = "" → sanitize_filename x = "untitled") ∧
    (x ≠ "" → (sanitize_filename x).length = min x.length 100) := by
  refine ⟨sanitize_ne_empty x, ?_, ?_⟩
  · intro hx; subst hx; rfl
  · intro hx; exact sanitize_length_of_ne x hx

/-- Witness for C6_nonempty_placeholder on both branches. -/
theorem C6_nonempty_placeholder_witness :
    sanitize_filename "" = "untitled" ∧ (sanitize_filename "ab?").length = 3 :=
  ⟨(C6_nonempty_placeholder "").2.1 rfl,
   by rw [(C6_nonempty_placeholder "ab?").2.2 (by decide)]; rfl⟩

/-- C10: marking a job completed maps every row through `updateRow`, which
leaves rows with a different id entirely unchanged, and even on the
matching row preserves id, filename, url, url_hash, started_at and
ip_address — only status, completed_at and filesize are written. -/
theorem C10_frame (db : List Row) (jid : String) (fs now : Nat) :
    record_download_complete db jid fs now = db.map (updateRow jid fs now) ∧
    (∀ r : Row, r.id ≠ jid → updateRow jid fs now r = r) ∧
    (∀ r : Row,
      (updateRow jid fs now r).id = r.id ∧
      (updateRow jid fs now r).filename = r.filename ∧
      (updateRow jid fs now r).url = r.url ∧
      (updateRow jid fs now r).urlHash = r.urlHash ∧
      (updateRow jid fs now r).startedAt = r.startedAt ∧
      (updateRow jid fs now r).ipAddress = r.ipAddress) := by
  refine ⟨rfl, ?_, ?_⟩
  · intro r hr
    simp [updateRow, hr]
  · intro r
    by_cases hr : r.id = jid <;> simp [updateRow, hr]

/-- Witness for C10_frame at a concrete two-row ledger. -/
theorem C10_frame_witness :
    record_download_complete
      [⟨"j1", "f1", "u1", "h1", "started", 0, none, none, "ip1"⟩,
       ⟨"j2", "f2", "u2", "h2", "started", 1, none, none, "ip2"⟩] "j1" 7 8 =
      [⟨"j1", "f1", "u1", "h1", "completed", 0, some 8, some 7, "ip1"⟩,
       ⟨"j2", "f2", "u2", "h2", "started", 1, none, none, "ip2"⟩] ∧
    updateRow "j1" 7 8 ⟨"j2", "f2", "u2", "h2", "started", 1, none, none, "ip2"⟩ =
      ⟨"j2", "f2", "u2", "h2", "started", 1, none, none, "ip2"⟩ :=
  ⟨by decide,
   (C10_frame [] "j1" 7 8).2.1 ⟨"j2", "f2", "u2", "h2", "started", 1, none, none, "ip2"⟩
     (by decide)⟩

/-- `shouldPurge` unfolded into the claim's vocabulary. -/
lemma shouldPurge_iff (cutoff : Nat) (r : Row) :
    shouldPurge cutoff r = true ↔
      r.status = "completed" ∧ ∃ t, r.completedAt = some t ∧ t < cutoff := by
  unfold shouldPurge
  cases hc : r.completedAt with
  | none => simp [hc]
  | some t => simp [hc, and_comm]

/-- C4: the Retrieval Gateway serves a file only when the decoded filename
matches the allow-list pattern and the resolved path stays a descendant of
the artifact root; and whenever the resolved path escapes the root the
request is answered with the invalid-filename error, regardless of the
pattern check's outcome. -/
theorem C4_traversal_guard (root : List String) (fex : List String → Bool)
    (sizeOf : List String → Nat) (decoded : String) :
    (∀ p s, download_file root fex sizeOf decoded = .served p s →
        validateFilename decoded = true ∧
        isSubPath (resolveComponents root) p = true) ∧
    (isSubPath (resolveComponents root)
        (resolveComponents (root ++ splitPath decoded)) = false →
      download_file root fex sizeOf decoded = .invalid) := by
  constructor
  · intro p s hs
    unfold download_file at hs
    dsimp only at hs
    split at hs
    · cases hs
    · split at hs
      · cases hs
      · split at hs
        · cases hs
        · split at hs
          · cases hs
          · cases hs
            simp_all
  · intro hsub
    unfold download_file
    dsimp only
    by_cases hv : validateFilename decoded
    · simp [hv, hsub]
    · simp [hv]

/-- Witness for C4_traversal_guard: `"../../etc/passwd"` is rejected, the
pattern-passing `".."` (which resolves above the root) is rejected, and the
served case certifies the pattern and descendant checks. -/
theorem C4_traversal_guard_witness :
    download_file ["srv", "downloads"] (fun _ => true) (fun _ => 1)
      "../../etc/passwd" = ServeResult.invalid ∧
    download_file ["srv", "downloads"] (fun _ => true) (fun _ => 1)
      ".." = ServeResult.invalid ∧
    (validateFilename "a.mp4" = true ∧
      isSubPath (resolveComponents ["srv", "downloads"])
        ["srv", "downloads", "a.mp4"] = true) :=
  ⟨(C4_traversal_guard ["srv", "downloads"] (fun _ => true) (fun _ => 1)
      "../../etc/passwd").2 (by decide),
   (C4_traversal_guard ["srv", "downloads"] (fun _ => true) (fun _ => 1)
      "..").2 (by decide),
   (C4_traversal_guard ["srv", "downloads"] (fun _ => true) (fun _ => 7)
      "a.mp4").1 ["srv", "downloads", "a.mp4"] 7 (by decide)⟩

/-- C9: once the filename passes the pattern and descendant checks, the
gateway answers 404 (`notFound`) when the file is absent, 500 (`emptyFile`)
when it exists with size zero, and streams (`served`) exactly when it
exists and is non-empty. -/
theorem C9_gateway_outcomes (root : List String) (fex : List String → Bool)
    (sizeOf : List String → Nat) (decoded : String)
    (hv : validateFilename decoded = true)
    (hsub : isSubPath (resolveComponents root)
      (resolveComponents (root ++ splitPath decoded)) = true) :
    (fex (resolveComponents (root ++ splitPath decoded)) = false →
      download_file root fex sizeOf decoded = .notFound) ∧
    (fex (resolveComponents (root ++ splitPath decoded)) = true →
      sizeOf (resolveComponents (root ++ splitPath decoded)) = 0 →
      download_file root fex sizeOf decoded = .emptyFile) ∧
    (fex (resolveComponents (root ++ splitPath decoded)) = true →
      sizeOf (resolveComponents (root ++ splitPath decoded)) ≠ 0 →
      download_file root fex sizeOf decoded =
        .served (resolveComponents (root ++ splitPath decoded))
          (sizeOf (resolveComponents (root ++ splitPath decoded)))) := by
  refine ⟨?_, ?_, ?_⟩
  · intro hf
    simp [download_file, hv, hsub, hf]
  · intro hf hz
    simp [download_file, hv, hsub, hf, hz]
  · intro hf hz
    simp [download_file, hv, hsub, hf, hz]

/-- Witness for C9_gateway_outcomes: all three outcomes at a concrete root
and filesystem. -/
theorem C9_gateway_outcomes_witness :
    download_file ["srv", "downloads"] (fun _ => false) (fun _ => 1)
      "a.mp4" = ServeResult.notFound ∧
    download_file ["srv", "downloads"] (fun _ => true) (fun _ => 0)
      "a.mp4" = ServeResult.emptyFile ∧
    download_file ["srv", "downloads"] (fun _ => true) (fun _ => 7)
      "a.mp4" = ServeResult.served ["srv", "downloads", "a.mp4"] 7 :=
  ⟨(C9_gateway_outcomes ["srv", "downloads"] (fun _ => false) (fun _ => 1)
      "a.mp4" (by decide) (by decide)).1 (by decide),
   (C9_gateway_outcomes ["srv", "downloads"] (fun _ => true) (fun _ => 0)
      "a.mp4" (by decide) (by decide)).2.1 (by decide) (by decide),
   (C9_gateway_outcomes ["srv", "downloads"] (fun _ => true) (fun _ => 7)
      "a.mp4" (by decide) (by decide)).2.2 (by decide) (by decide)⟩

/-- C7: a purge keeps exactly the rows that are not (completed with a
completion time before the cutoff); it is idempotent on the ledger; and
the surviving ledger does not depend on which file deletions fail (the
batch never aborts on an unlink error). -/
theorem C7_purge_semantics (cutoff : Nat) (db : List Row) (fs : List String)
    (delFails : String → Bool) :
    (∀ r : Row, r ∈ (cleanup_old_files cutoff db fs delFails).1 ↔
      r ∈ db ∧ ¬(r.status = "completed" ∧ ∃ t, r.completedAt = some t ∧ t < cutoff)) ∧
    (∀ fs2 dF2, (cleanup_old_files cutoff
        (cleanup_old_files cutoff db fs delFails).1 fs2 dF2).1
      = (cleanup_old_files cutoff db fs delFails).1) ∧
    ((cleanup_old_files cutoff db fs delFails).1
      = (cleanup_old_files cutoff db fs (fun _ => false)).1) := by
  refine ⟨?_, ?_, rfl⟩
  · intro r
    show r ∈ db.filter (fun r => !(shouldPurge cutoff r)) ↔ _
    rw [List.mem_filter]
    constructor
    · rintro ⟨hr, hp⟩
      refine ⟨hr, fun hc => ?_⟩
      rw [Bool.not_eq_true'] at hp
      rw [(shouldPurge_iff cutoff r).mpr hc] at hp
      cases hp
    · rintro ⟨hr, hc⟩
      refine ⟨hr, ?_⟩
      rw [Bool.not_eq_true']
      cases hp : shouldPurge cutoff r
      · rfl
      · exact absurd ((shouldPurge_iff cutoff r).mp hp) hc
  · intro fs2 dF2
    show (db.filter (fun r => !(shouldPurge cutoff r))).filter
        (fun r => !(shouldPurge cutoff r)) = _
    rw [List.filter_filter]
    apply List.filter_congr
    intro r _
    rw [Bool.and_self]

/-- Witness for C7_purge_semantics: a fresh completed row survives a purge
with cutoff 10, and re-purging the survivors is a no-op. -/
theorem C7_purge_semantics_witness :
    (⟨"j2", "new.mp4", "u2", "h2", "completed", 1, some 20, some 9, "ip"⟩ : Row) ∈
      (cleanup_old_files 10
        [⟨"j1", "old.mp4", "u1", "h1", "completed", 0, some 3, some 5, "ip"⟩,
         ⟨"j2", "new.mp4", "u2", "h2", "completed", 1, some 20, some 9, "ip"⟩]
        ["old.mp4", "new.mp4"] (fun _ => false)).1 ∧
    (cleanup_old_files 10
      (cleanup_old_files 10
        [⟨"j1", "old.mp4", "u1", "h1", "completed", 0, some 3, some 5, "ip"⟩,
         ⟨"j2", "new.mp4", "u2", "h2", "completed", 1, some 20, some 9, "ip"⟩]
        ["old.mp4", "new.mp4"] (fun _ => false)).1 [] (fun _ => true)).1 =
    (cleanup_old_files 10
      [⟨"j1", "old.mp4", "u1", "h1", "completed", 0, some 3, some 5, "ip"⟩,
       ⟨"j2", "new.mp4", "u2", "h2", "completed", 1, some 20, some 9, "ip"⟩]
      ["old.mp4", "new.mp4"] (fun _ => false)).1 :=
  ⟨((C7_purge_semantics 10 _ _ _).1 _).mpr
    ⟨by simp, by rintro ⟨-, t, ht, hlt⟩; simp at ht; omega⟩,
   (C7_purge_semantics 10 _ _ _).2.1 [] (fun _ => true)⟩

/-- C8 (counterexample): the filename uses only the job id's first eight
characters, so two distinct job ids sharing that prefix collide even
though the ids differ — the claim says distinct job ids never receive the
same filename. -/
theorem C8_counterexample :
    ("aaaaaaaa-1111" : String) ≠ "aaaaaaaa-2222" ∧
    make_filename "t" "aaaaaaaa-1111" = make_filename "t" "aaaaaaaa-2222" := by
  refine ⟨by decide, by decide⟩

/-- C8 (amended): the artifact filename is synthesized deterministically as
`{sanitized title}_{first 8 chars of job id}.mp4`; for a common title, two
jobs receive the same filename exactly when their job ids agree on the
first eight characters — ids differing within that prefix never collide. -/
theorem C8_short_id_distinct (t id1 id2 : String)
    (hne : id1.toList.take 8 ≠ id2.toList.take 8) :
    make_filename t id1 ≠ make_filename t id2 := by
  intro h
  apply hne
  have hd := congrArg String.data h
  simp only [make_filename, data_append] at hd
  have h1 := List.append_cancel_right hd
  have h2 := List.append_cancel_left h1
  exact h2

/-- Witness for C8_short_id_distinct at concrete ids with distinct
8-character prefixes. -/
theorem C8_short_id_distinct_witness :
    make_filename "t" "aaaaaaaa-1" ≠ make_filename "t" "bbbbbbbb-1" :=
  C8_short_id_distinct "t" "aaaaaaaa-1" "bbbbbbbb-1" (by decide)

end Vidsuka
